import Mathlib

/-!
Verification development for the `ril` repository: a shallow embedding of the
AT-command transport engine (`src/SourceCode/src/ril.c`) and of the SMS PDU
codec (`src/SourceCode/src/lib_ril_sms.c`), with theorems settling the frozen
behavioural claims about them.

Modelling conventions:
* machine integers are `Nat` with explicit `% 2 ^ w` where the C truncates;
* byte buffers are `List Nat`, character buffers are `List Char`;
* the UART byte transport (out of scope for the design) is modelled as the
  list of received bytes plus boolean flags for the transmit side;
* fallible C functions returning `bool` with out-parameters become
  `Option`-returning Lean functions.
-/

/-- The characters of a string literal, as the C code sees a `char` buffer. -/
def chars (s : String) : List Char := s.data

/-! ## SMS hex codec (`lib_ril_sms.c`, lines 30-132) -/

/-- One nibble (value `0..15`) to its hex character, mirroring the two
`if (u <= 9)` branches of `LIB_SMS_ConvHexOctToHexStr`. -/
def nibbleChar (u : Nat) : Char :=
  if u ≤ 9 then Char.ofNat (u + 48) else Char.ofNat (u - 10 + 65)

/-- The conversion loop of `LIB_SMS_ConvHexOctToHexStr`: byte `i` yields the
characters at `pDest[i*2]` (high nibble) and `pDest[i*2+1]` (low nibble). -/
def octetsToHexChars : List Nat → List Char
  | [] => []
  | b :: bs =>
    nibbleChar ((b >>> 4) &&& 0x0F) :: nibbleChar (b &&& 0x0F) :: octetsToHexChars bs

/-- Model of `LIB_SMS_ConvHexOctToHexStr(pSrc, uSrcLen, pDest, pDestLen)`: convert a
byte buffer to a hex string.  `destCap` is the incoming `*pDestLen` (the
destination capacity); `none` models a `false` return (null/empty source or a
too-small destination). -/
def LIB_SMS_ConvHexOctToHexStr (src : List Nat) (destCap : Nat) :
    Option (List Char) :=
  if src.length = 0 then none
  else if destCap < src.length * 2 then none
  else some (octetsToHexChars src)

/-- One hex character to its nibble value, mirroring the three range checks of
`LIB_SMS_ConvHexStrToHexOct`; `none` models the `return false` branch. -/
def hexCharVal (c : Char) : Option Nat :=
  if '0' ≤ c ∧ c ≤ '9' then some (c.toNat - 48)
  else if 'A' ≤ c ∧ c ≤ 'F' then some (c.toNat - 65 + 10)
  else if 'a' ≤ c ∧ c ≤ 'f' then some (c.toNat - 97 + 10)
  else none

/-- The conversion loop of `LIB_SMS_ConvHexStrToHexOct`: each pair of hex
characters becomes one byte `(uHigh << 4) | uLow`. -/
def hexPairsToOctets : List Char → Option (List Nat)
  | [] => some []
  | [_] => none
  | hi :: lo :: rest =>
    match hexCharVal hi, hexCharVal lo with
    | some h, some l =>
      match hexPairsToOctets rest with
      | some bs => some (((h <<< 4) ||| l) :: bs)
      | none => none
    | _, _ => none

/-- Model of `LIB_SMS_ConvHexStrToHexOct(pSrc, uSrcLen, pDest, pDestLen)`: convert a
hex string back to bytes.  `destCap` is the incoming `*pDestLen`; `none`
models a `false` return (empty source, odd length, too-small destination, or a
non-hex character). -/
def LIB_SMS_ConvHexStrToHexOct (src : List Char) (destCap : Nat) :
    Option (List Nat) :=
  if src.length = 0 then none
  else if src.length % 2 ≠ 0 then none
  else if destCap < src.length / 2 then none
  else hexPairsToOctets src

/-- Uppercase-hex character predicate used by claim C7's statement. -/
def isUpperHexDigit (c : Char) : Bool :=
  ('0' ≤ c ∧ c ≤ '9') ∨ ('A' ≤ c ∧ c ≤ 'F')

/-! ### Round-trip lemmas for the hex codec -/

theorem nibbleChar_isUpperHex {u : Nat} (h : u < 16) :
    isUpperHexDigit (nibbleChar u) = true := by
  interval_cases u <;> decide

theorem hexCharVal_nibbleChar {u : Nat} (h : u < 16) :
    hexCharVal (nibbleChar u) = some u := by
  interval_cases u <;> decide

theorem byte_nibble_recombine {b : Nat} (h : b < 256) :
    ((((b >>> 4) &&& 0x0F) <<< 4) ||| (b &&& 0x0F)) = b := by
  interval_cases b <;> decide

theorem hexPairsToOctets_encode {B : List Nat} (h : ∀ b ∈ B, b < 256) :
    hexPairsToOctets (octetsToHexChars B) = some B := by
  induction B with
  | nil => rfl
  | cons b bs ih =>
    have hb : b < 256 := h b (List.mem_cons_self b bs)
    have hhi : ((b >>> 4) &&& 0x0F) < 16 := by
      have := Nat.and_le_right (n := b >>> 4) (m := 0x0F)
      omega
    have hlo : (b &&& 0x0F) < 16 := by
      have := Nat.and_le_right (n := b) (m := 0x0F)
      omega
    simp only [octetsToHexChars, hexPairsToOctets,
      hexCharVal_nibbleChar hhi, hexCharVal_nibbleChar hlo,
      ih (fun x hx => h x (List.mem_cons_of_mem _ hx))]
    rw [byte_nibble_recombine hb]

theorem octetsToHexChars_length (B : List Nat) :
    (octetsToHexChars B).length = B.length * 2 := by
  induction B with
  | nil => rfl
  | cons b bs ih => simp [octetsToHexChars, ih] ; omega

theorem octetsToHexChars_upper {B : List Nat} (h : ∀ b ∈ B, b < 256) :
    ∀ c ∈ octetsToHexChars B, isUpperHexDigit c = true := by
  induction B with
  | nil => intro c hc ; cases hc
  | cons b bs ih =>
    intro c hc
    have hb : b < 256 := h b (List.mem_cons_self b bs)
    have hhi : ((b >>> 4) &&& 0x0F) < 16 := by
      have := Nat.and_le_right (n := b >>> 4) (m := 0x0F)
      omega
    have hlo : (b &&& 0x0F) < 16 := by
      have := Nat.and_le_right (n := b) (m := 0x0F)
      omega
    simp only [octetsToHexChars, List.mem_cons] at hc
    rcases hc with rfl | rfl | hc
    · exact nibbleChar_isUpperHex hhi
    · exact nibbleChar_isUpperHex hlo
    · exact ih (fun x hx => h x (List.mem_cons_of_mem _ hx)) c hc

/-- C7: for every non-empty byte sequence `B` (destination capacity at least
`2·|B|` characters, reverse capacity at least `|B|` bytes),
`LIB_SMS_ConvHexStrToHexOct` applied to the string produced by
`LIB_SMS_ConvHexOctToHexStr` returns exactly `B`, and the produced string
contains only uppercase `[0-9A-F]` characters. -/
theorem hex_codec_round_trip (B : List Nat) (destCap revCap : Nat)
    (hne : B ≠ []) (hbyte : ∀ b ∈ B, b < 256)
    (hcap : B.length * 2 ≤ destCap) (hrev : B.length ≤ revCap) :
    ∃ s, LIB_SMS_ConvHexOctToHexStr B destCap = some s ∧
      (∀ c ∈ s, isUpperHexDigit c = true) ∧
      LIB_SMS_ConvHexStrToHexOct s revCap = some B := by
  refine ⟨octetsToHexChars B, ?_, octetsToHexChars_upper hbyte, ?_⟩
  · unfold LIB_SMS_ConvHexOctToHexStr
    rw [if_neg (by simpa using hne), if_neg (by omega)]
  · unfold LIB_SMS_ConvHexStrToHexOct
    rw [octetsToHexChars_length]
    rw [if_neg (by rcases B with _ | ⟨b, bs⟩ <;> simp_all), if_neg (by omega),
      if_neg (by omega)]
    exact hexPairsToOctets_encode hbyte

/-- Witness for C7 at the concrete byte sequence `[0xAB, 0x01, 0xF0]`. -/
theorem hex_codec_round_trip_witness :
    ∃ s, LIB_SMS_ConvHexOctToHexStr [0xAB, 0x01, 0xF0] 6 = some s ∧
      (∀ c ∈ s, isUpperHexDigit c = true) ∧
      LIB_SMS_ConvHexStrToHexOct s 3 = some [0xAB, 0x01, 0xF0] :=
  hex_codec_round_trip [0xAB, 0x01, 0xF0] 6 3 (by decide) (by decide)
    (by decide) (by decide)

/-! ## SMS PDU codec data model (`lib_ril_sms.h`)

C fixed-size arrays (`aNumber[20]`, `aUserData[160]`, `aOct[180]`) are
modelled as lists holding the written prefix; the surrounding C structures are
zero-initialised by callers, so unwritten array bytes are modelled as `0`.
The C union `LIB_SMS_ValidityPeriodUnion` is modelled as a product: the
decoder writes and the encoder reads the member selected by the same VPF
bits of the first octet, so the aliasing of the union is never observed. -/

structure LIB_SMS_PhoneNumberStruct where
  uType : Nat := 0
  aNumber : List Nat := []
  uLen : Nat := 0
deriving DecidableEq

structure LIB_SMS_TimeStampStruct where
  uYear : Nat := 0
  uMonth : Nat := 0
  uDay : Nat := 0
  uHour : Nat := 0
  uMinute : Nat := 0
  uSecond : Nat := 0
  iTimeZone : Nat := 0
deriving DecidableEq

structure LIB_SMS_ConSMSParamStruct where
  uMsgType : Nat := 0
  uMsgRef : Nat := 0
  uMsgSeg : Nat := 0
  uMsgTot : Nat := 0
deriving DecidableEq

structure LIB_SMS_UserDataStruct where
  aUserData : List Nat := []
  uLen : Nat := 0
deriving DecidableEq

structure LIB_SMS_ValidityPeriodUnion where
  uRelative : Nat := 0
  sAbsolute : LIB_SMS_TimeStampStruct := {}
deriving DecidableEq

structure LIB_SMS_DeliverPDUParamStruct where
  sConSMSParam : LIB_SMS_ConSMSParamStruct := {}
  sOA : LIB_SMS_PhoneNumberStruct := {}
  uPID : Nat := 0
  uDCS : Nat := 0
  sSCTS : LIB_SMS_TimeStampStruct := {}
  sUserData : LIB_SMS_UserDataStruct := {}
deriving DecidableEq

structure LIB_SMS_SubmitPDUParamStruct where
  sConSMSParam : LIB_SMS_ConSMSParamStruct := {}
  sDA : LIB_SMS_PhoneNumberStruct := {}
  uPID : Nat := 0
  uDCS : Nat := 0
  sVP : LIB_SMS_ValidityPeriodUnion := {}
  sUserData : LIB_SMS_UserDataStruct := {}
deriving DecidableEq

/-- The `sParam` union of `LIB_SMS_PDUParamStruct`: the decoder fills exactly
one member, selected by the message type in the first octet. -/
inductive LIB_SMS_PDUBodyParam where
  | deliver (p : LIB_SMS_DeliverPDUParamStruct)
  | submit (p : LIB_SMS_SubmitPDUParamStruct)
deriving DecidableEq

structure LIB_SMS_PDUParamStruct where
  sSCA : LIB_SMS_PhoneNumberStruct := {}
  uFO : Nat := 0
  sParam : LIB_SMS_PDUBodyParam
deriving DecidableEq

/-- Model of `LIB_SMS_GET_MSG_TYPE_IN_PDU_FO`: bits 0-1 of the first octet. -/
def LIB_SMS_GET_MSG_TYPE_IN_PDU_FO (fo : Nat) : Nat := fo &&& 0x03

/-- Model of `LIB_SMS_GET_UDHI_IN_PDU`: bit 6 of the first octet. -/
def LIB_SMS_GET_UDHI_IN_PDU (fo : Nat) : Nat := (fo &&& 0x40) >>> 6

/-- Model of `LIB_SMS_GET_VPF_IN_SUBMIT_PDU_FO`: bits 3-4 of the first octet. -/
def LIB_SMS_GET_VPF_IN_SUBMIT_PDU_FO (fo : Nat) : Nat := (fo &&& 0x18) >>> 3

/-! ## PDU decoding (`LIB_SMS_DecodePDUStr`, lines 412-628) -/

/-- The numeric-address digit loop (`aNumber[i] = (aOct[uOffset] & 0x0F)+'0'`;
`aNumber[i+1] = (aOct[uOffset] >> 4)+'0'` when `i+1` is in range): `n` ASCII
digits taken from the semi-octets starting at `start`. -/
def semiOctetDigits (oct : Nat → Nat) (start n : Nat) : List Nat :=
  (List.range n).map fun i =>
    let b := oct (start + i / 2)
    if i % 2 = 0 then (b &&& 0x0F) + 48 else (b >>> 4) + 48

/-- The 7-octet decimal-coded timestamp loop
(`pSCTS[i] = ((aOct[uOffset] & 0x0F) * 10) + (aOct[uOffset] >> 4)`). -/
def decodeTimeStamp (oct : Nat → Nat) (start : Nat) : LIB_SMS_TimeStampStruct :=
  let d := fun i => ((oct (start + i) &&& 0x0F) * 10) + (oct (start + i) >>> 4)
  { uYear := d 0, uMonth := d 1, uDay := d 2, uHour := d 3,
    uMinute := d 4, uSecond := d 5, iTimeZone := d 6 }

/-- SMSC address decoding (lines 430-456).  Returns the filled `sSCA` and the
next read offset.  `uNumLen = (uLen - 1) * 2` is `uint8_t` arithmetic, hence
the `% 256`. -/
def decodeSMSC (oct : Nat → Nat) : LIB_SMS_PhoneNumberStruct × Nat :=
  let uLen := oct 0
  if uLen > 0 then
    let uType := oct 1
    if (uType &&& 0x70) = 0x50 then
      ({ uType := uType,
         aNumber := (List.range (uLen - 1)).map fun i => oct (2 + i),
         uLen := uLen - 1 }, 2 + (uLen - 1))
    else
      let uNumLen := ((uLen - 1) * 2) % 256
      ({ uType := uType, aNumber := semiOctetDigits oct 2 uNumLen,
         uLen := uNumLen }, 2 + (uNumLen + 1) / 2)
  else ({}, 1)

/-- Originator/destination address decoding (lines 466-490 and 541-565).
Returns the filled phone-number struct and the next read offset.  The numeric
branch consumes one octet per loop iteration, `⌈uLen/2⌉` in total. -/
def decodeAddr (oct : Nat → Nat) (off : Nat) : LIB_SMS_PhoneNumberStruct × Nat :=
  let uLen := oct off
  let uType := oct (off + 1)
  let off := off + 2
  if (uType &&& 0x70) = 0x50 then
    let uBytes := (uLen + 1) / 2
    ({ uType := uType, aNumber := (List.range uBytes).map fun i => oct (off + i),
       uLen := uLen }, off + uBytes)
  else
    ({ uType := uType, aNumber := semiOctetDigits oct off uLen, uLen := uLen },
      off + (uLen + 1) / 2)

/-- User-data decoding shared by the DELIVER and SUBMIT branches (lines
507-531 and 594-619): UDL octet, optional UDH with concatenation extraction,
then the data copy.  `uLen -= (uUDHLen + 1)` is `uint8_t` arithmetic, hence
the wrap-around modelled with `% 256`. -/
def decodeUserData (oct : Nat → Nat) (off : Nat) (udhi : Nat) :
    LIB_SMS_ConSMSParamStruct × LIB_SMS_UserDataStruct :=
  let uLen := oct off
  let off := off + 1
  if udhi ≠ 0 then
    let uUDHLen := oct off
    let off := off + 1
    let con : LIB_SMS_ConSMSParamStruct :=
      if 5 ≤ uUDHLen ∧ (oct off = 0x00 ∨ oct off = 0x08) then
        { uMsgRef := oct (off + 1), uMsgTot := oct (off + 2),
          uMsgSeg := oct (off + 3) }
      else {}
    let off := off + uUDHLen
    let uLen := (uLen + 512 - (uUDHLen + 1)) % 256
    (con,
      if uLen > 0 then
        { aUserData := (List.range uLen).map (fun i => oct (off + i)), uLen := uLen }
      else {})
  else
    ({},
      if uLen > 0 then
        { aUserData := (List.range uLen).map (fun i => oct (off + i)), uLen := uLen }
      else {})

/-- Model of `LIB_SMS_DecodePDUStr(pPDUStr, uPDUStrLen, pParam)`: hex-decode into the
180-byte zero-initialised `aOct` buffer (reads past the converted octets
yield the initialisation zeroes, modelled by `List.getD _ _ 0`), then parse
SMSC, first octet, and the DELIVER or SUBMIT layout.  `none` models the
`return false` paths (empty/invalid hex string, or a message type that is
neither DELIVER nor SUBMIT). -/
def LIB_SMS_DecodePDUStr (pduStr : List Char) : Option LIB_SMS_PDUParamStruct :=
  if pduStr.length = 0 then none
  else
    match LIB_SMS_ConvHexStrToHexOct pduStr 180 with
    | none => none
    | some octs =>
      let oct := fun i => octs.getD i 0
      let (sSCA, off) := decodeSMSC oct
      let uFO := oct off
      let off := off + 1
      if LIB_SMS_GET_MSG_TYPE_IN_PDU_FO uFO = 0x00 then
        -- LIB_SMS_PDU_TYPE_DELIVER
        let (sOA, off) := decodeAddr oct off
        let uPID := oct off
        let uDCS := oct (off + 1)
        let sSCTS := decodeTimeStamp oct (off + 2)
        let (con, ud) := decodeUserData oct (off + 9) (LIB_SMS_GET_UDHI_IN_PDU uFO)
        some { sSCA := sSCA, uFO := uFO,
               sParam := .deliver { sConSMSParam := con, sOA := sOA, uPID := uPID,
                                    uDCS := uDCS, sSCTS := sSCTS, sUserData := ud } }
      else if LIB_SMS_GET_MSG_TYPE_IN_PDU_FO uFO = 0x01 then
        -- LIB_SMS_PDU_TYPE_SUBMIT; the MR octet is skipped without being stored
        let off := off + 1
        let (sDA, off) := decodeAddr oct off
        let uPID := oct off
        let uDCS := oct (off + 1)
        let off := off + 2
        let (sVP, off) :=
          if LIB_SMS_GET_VPF_IN_SUBMIT_PDU_FO uFO = 0x02 then
            (({ uRelative := oct off } : LIB_SMS_ValidityPeriodUnion), off + 1)
          else if LIB_SMS_GET_VPF_IN_SUBMIT_PDU_FO uFO = 0x03 then
            (({ sAbsolute := decodeTimeStamp oct off } : LIB_SMS_ValidityPeriodUnion),
              off + 7)
          else (({} : LIB_SMS_ValidityPeriodUnion), off)
        let (con, ud) := decodeUserData oct off (LIB_SMS_GET_UDHI_IN_PDU uFO)
        some { sSCA := sSCA, uFO := uFO,
               sParam := .submit { sConSMSParam := con, sDA := sDA, uPID := uPID,
                                   uDCS := uDCS, sVP := sVP, sUserData := ud } }
      else none

/-! ## SUBMIT-PDU encoding (`LIB_SMS_EncodeSubmitPDU`, lines 630-681) -/

/-- Model of `memcpy(dst, src, n)` from a struct array whose written prefix is `l` and
whose remaining (zero-initialised) bytes are `0`. -/
def padTake (l : List Nat) (n : Nat) : List Nat := (l ++ List.replicate n 0).take n

/-- The 7 raw bytes of a timestamp struct, in field order, as read through the
`uint8_t*` cast of the absolute-VP encoding loop. -/
def timeStampBytes (t : LIB_SMS_TimeStampStruct) : List Nat :=
  [t.uYear, t.uMonth, t.uDay, t.uHour, t.uMinute, t.uSecond, t.iTimeZone]

/-- Model of `LIB_SMS_EncodeSubmitPDU(pParam, pInfo)`: emit FO, MR (taken from
`sConSMSParam.uMsgRef`, a `uint16_t` truncated to a byte), DA length/type and
a verbatim `memcpy` of `sDA.aNumber`, PID, DCS, the VP selected by the VPF
bits of FO, UDL (`uint16_t` truncated to a byte) and a verbatim `memcpy` of
the user data.  The produced octet list is `pInfo->aPDUOct[0..uLen)`. -/
def LIB_SMS_EncodeSubmitPDU (fo : Nat) (p : LIB_SMS_SubmitPDUParamStruct) :
    List Nat :=
  [fo, p.sConSMSParam.uMsgRef % 256, p.sDA.uLen, p.sDA.uType]
    ++ padTake p.sDA.aNumber p.sDA.uLen
    ++ [p.uPID, p.uDCS]
    ++ (if LIB_SMS_GET_VPF_IN_SUBMIT_PDU_FO fo = 0x02 then [p.sVP.uRelative]
        else if LIB_SMS_GET_VPF_IN_SUBMIT_PDU_FO fo = 0x03 then
          timeStampBytes p.sVP.sAbsolute
        else [])
    ++ [p.sUserData.uLen % 256]
    ++ padTake p.sUserData.aUserData p.sUserData.uLen

/-! ### The SUBMIT PDU round-trip (claim C4) -/

/-- The spec's SUBMIT PDU scenario input
(`"0011000B916407281553F80000AA0AE8329BFD4697D9EC37"`). -/
def pduScenarioStr : List Char :=
  chars "0011000B916407281553F80000AA0AE8329BFD4697D9EC37"

/-- The observable SUBMIT fields named by the round-trip property:
destination address (type, digit bytes, length), PID, DCS, relative validity
period, and user data bytes. -/
structure SubmitObservableFields where
  daType : Nat
  daNumber : List Nat
  daLen : Nat
  pid : Nat
  dcs : Nat
  vpRelative : Nat
  userData : List Nat
deriving DecidableEq

/-- Extract the observable SUBMIT fields of a decode result; `none` when the
decode failed or did not produce a SUBMIT. -/
def submitObservables (o : Option LIB_SMS_PDUParamStruct) :
    Option SubmitObservableFields :=
  match o with
  | some p =>
    match p.sParam with
    | .submit q =>
      some ⟨q.sDA.uType, q.sDA.aNumber, q.sDA.uLen, q.uPID, q.uDCS,
        q.sVP.uRelative, q.sUserData.aUserData⟩
    | _ => none
  | none => none

/-- Re-encode the SUBMIT parameters of a decode result with
`LIB_SMS_EncodeSubmitPDU` and render them as a hex string, as a sender would
before handing the PDU back to `LIB_SMS_DecodePDUStr`. -/
def reEncodeSubmit (o : Option LIB_SMS_PDUParamStruct) : Option (List Char) :=
  match o with
  | some p =>
    match p.sParam with
    | .submit q => LIB_SMS_ConvHexOctToHexStr (LIB_SMS_EncodeSubmitPDU p.uFO q) 360
    | _ => none
  | none => none

/-- C4 (failing-input evaluation): decoding the spec's SUBMIT scenario PDU
yields destination digits `"46708251358"` (as ASCII bytes), PID 0, DCS 0,
relative VP `0xAA`; re-encoding those decoded parameters yields a byte string
that embeds the ASCII digit bytes verbatim (no semi-octet packing) and omits
the SMSC length octet, so decoding the encoder's output directly fails, and
even after prepending a zero SMSC length the decoded observable fields differ
from the original ones.  Hence
`decode (encode_submit (decode P)) ≠ decode P` over the observable fields. -/
theorem submit_pdu_round_trip_fails :
    submitObservables (LIB_SMS_DecodePDUStr pduScenarioStr) =
      some ⟨0x91, (chars "46708251358").map Char.toNat, 11, 0, 0, 0xAA,
        [0xE8, 0x32, 0x9B, 0xFD, 0x46, 0x97, 0xD9, 0xEC, 0x37, 0x00]⟩ ∧
    reEncodeSubmit (LIB_SMS_DecodePDUStr pduScenarioStr) =
      some (chars "11000B9134363730383235313335380000AA0AE8329BFD4697D9EC3700") ∧
    LIB_SMS_DecodePDUStr
      (chars "11000B9134363730383235313335380000AA0AE8329BFD4697D9EC3700") = none ∧
    submitObservables (LIB_SMS_DecodePDUStr
      (chars "0011000B9134363730383235313335380000AA0AE8329BFD4697D9EC3700")) ≠
      submitObservables (LIB_SMS_DecodePDUStr pduScenarioStr) := by
  refine ⟨by decide, by decide, by decide, by decide⟩

/-! ## RIL context and state (`ril.c`, lines 29-46, `ril.h`, `ril_error.h`)

`RIL_USE_OS` is 0 in `ril.h`, so the mutex fields and lock/unlock calls are
compiled out and are not modelled.  The UART byte transport is out of scope
for the design: the receive direction is modelled as the list of buffered RX
bytes, and the transmit direction (`OStream_writeBytes`/`OStream_flush`, the
chunked send and the drain loop of `RIL_SendBinaryData`) as a boolean saying
whether the whole write phase succeeded. -/

inductive RILState where
  | busy
  | ready
deriving DecidableEq

inductive RIL_OperationMode where
  | normal
  | binary
deriving DecidableEq

inductive RIL_ATSndError where
  | success
  | timeout
  | failed
  | busy
  | invalidParam
  | uninitialized
deriving DecidableEq

structure RILContext where
  state : RILState := .ready
  operationMode : RIL_OperationMode := .normal
  expectedBytes : Nat := 0
  error : Nat := 0
  initialized : Bool := false
  urcSubscribed : Bool := false
deriving DecidableEq

/-- An AT response callback (`Callback_ATResponse`): receives the line and its
length, may mutate the context through the public mode/error setters, and
returns the `int32_t` response classification (`RIL_ATRSP_CONTINUE = 1`,
`RIL_ATRSP_SUCCESS = 0`, `RIL_ATRSP_FAILED = -1`). -/
abbrev ATResponseCallback := List Char → Nat → RILContext → Int × RILContext

/-- Externally observable interactions of one engine run: response-callback
invocations and URC deliveries to the subscriber callback. -/
inductive RILEvent where
  | cbInvoke (line : List Char) (len : Nat)
  | urcDeliver (tag : Nat) (line : List Char)
deriving DecidableEq

structure EngineOut where
  result : RIL_ATSndError
  ctx : RILContext
  rx : List Char
  events : List RILEvent
deriving DecidableEq

/-- Model of `RIL_SetOperationNormal` (lines 74-77). -/
def RIL_SetOperationNormal (ctx : RILContext) : RILContext :=
  { ctx with operationMode := .normal, expectedBytes := 0 }

/-- Model of `RIL_SetOperationBinary` (lines 79-82). -/
def RIL_SetOperationBinary (expectedBytes : Nat) (ctx : RILContext) : RILContext :=
  { ctx with operationMode := .binary, expectedBytes := expectedBytes }

/-- Model of `RIL_AT_GetErrCode` (lines 660-662). -/
def RIL_AT_GetErrCode (ctx : RILContext) : Nat := ctx.error

/-- Model of `_RIL_AcquireAccess` (lines 260-271): reset the error code, check
initialisation, transition to `BUSY`. -/
def _RIL_AcquireAccess (ctx : RILContext) : RIL_ATSndError × RILContext :=
  let ctx := { ctx with error := 0 }
  if ¬ctx.initialized then (.uninitialized, ctx)
  else (.success, { ctx with state := .busy })

/-- Model of `_RIL_ReleaseAccess` (lines 277-283): back to `READY`, optionally
resetting the operation mode to normal. -/
def _RIL_ReleaseAccess (resetOperationMode : Bool) (ctx : RILContext) : RILContext :=
  let ctx := { ctx with state := .ready }
  if resetOperationMode then RIL_SetOperationNormal ctx else ctx

/-! ## Line framing over the RX byte stream -/

def CRLF : List Char := ['\r', '\n']

/-- Model of `IStream_readBytesUntilPattern` for the CRLF pattern: consume up to and
including the first CRLF, returning the consumed frame and the remaining
bytes; `none` models a 0 return (no complete frame buffered, nothing
consumed). -/
def readUntilCRLF : List Char → Option (List Char × List Char)
  | [] => none
  | c :: rest =>
    if c = '\r' ∧ rest.head? = some '\n' then some (['\r', '\n'], rest.tail)
    else
      match readUntilCRLF rest with
      | some (frame, r) => some (c :: frame, r)
      | none => none

/-- Model of `IStream_readBytesUntil` for the `'>'` prompt byte: consume up to and
including the first `'>'`; `none` models a 0 return. -/
def readUntilPrompt : List Char → Option (List Char × List Char)
  | [] => none
  | c :: rest =>
    if c = '>' then some ([c], rest)
    else
      match readUntilPrompt rest with
      | some (frame, r) => some (c :: frame, r)
      | none => none

/-- The frame post-processing of the response loops (lines 521-526 and
305-310): require `len > CRLFLen`, drop the CRLF, and strip one trailing
`'\r'` if present.  `none` means the frame is consumed without yielding a
line. -/
def stripFrame (raw : List Char) : Option (List Char) :=
  if raw.length ≤ 2 then none
  else
    let l := raw.dropLast.dropLast
    some (if l.getLast? = some '\r' then l.dropLast else l)

/-! ## Error-line recognition (`_lineIsError`, lines 668-679) -/

/-- C `strncmp` (also the external `Str_compareFix` helper, per the spec a
fixed-length prefix comparison) over NUL-terminated buffers that contain no
interior NUL byte: the end of a buffer behaves as a terminating NUL, which
compares below every line character. -/
def strncmpN : List Char → List Char → Nat → Int
  | _, _, 0 => 0
  | [], [], _ + 1 => 0
  | [], _ :: _, _ + 1 => -1
  | _ :: _, [], _ + 1 => 1
  | a :: as, b :: bs, n + 1 =>
    if a = b then strncmpN as bs n else if a < b then -1 else 1

/-- One outcome of matching a literal format segment: matched with remaining
input, matching failure, or input exhausted before the segment completed
(which C `sscanf` reports as `EOF` when no conversion has completed yet). -/
inductive ScanLitResult where
  | matched (rest : List Char)
  | mismatch
  | inputEnd
deriving DecidableEq

/-- Matching of the literal format segment `lit` against the front of
`input`. -/
def scanLit : List Char → List Char → ScanLitResult
  | [], input => .matched input
  | _ :: _, [] => .inputEnd
  | l :: ls, c :: cs => if c = l then scanLit ls cs else .mismatch

/-- C `isspace` characters (space, and the 0x09-0x0D control range). -/
def isCWhitespace (c : Char) : Bool := c.toNat = 32 ∨ (9 ≤ c.toNat ∧ c.toNat ≤ 13)

/-- C `isdigit`. -/
def isDigitChar (c : Char) : Bool := 48 ≤ c.toNat ∧ c.toNat ≤ 57

/-- Value of a decimal digit run. -/
def digitsVal (l : List Char) : Nat := l.foldl (fun a c => a * 10 + (c.toNat - 48)) 0

/-- Model of `sscanf(line, "+CME ERROR: %hu", &err)` (and the `+CMS` variant), for AT
response lines: match the literal `family` segment, skip whitespace, match
`ERROR:`, skip whitespace, then convert a decimal digit run into a `uint16`
(`%hu`, modelled as the value mod `2^16`; modem error codes are unsigned
decimals so sign handling is not modelled).  Returns the `sscanf` return value
(1 conversion, 0 matching failure, `-1` = `EOF` input failure) and the
converted value when there is one.  `scanfReadNum` is the `%hu` tail of the
format. -/
def scanfReadNum (r : List Char) : Int × Option Nat :=
  match r.dropWhile isCWhitespace with
  | [] => (-1, none)
  | c :: cs =>
    if isDigitChar c then
      (1, some (digitsVal ((c :: cs).takeWhile isDigitChar) % 65536))
    else (0, none)

def scanfErrorFormat (family : List Char) (input : List Char) : Int × Option Nat :=
  match scanLit family input with
  | .inputEnd => (-1, none)
  | .mismatch => (0, none)
  | .matched r1 =>
    match scanLit (chars "ERROR:") (r1.dropWhile isCWhitespace) with
    | .inputEnd => (-1, none)
    | .mismatch => (0, none)
    | .matched r2 => scanfReadNum r2

/-- Model of `_lineIsError(line, len, &errCode)` (lines 668-679): try the `+CME` and
`+CMS` formats (returning their `sscanf` result when it is nonzero), else
`!strncmp(line, "ERROR", len)`.  The second component is the converted error
code; it is `none` on the `strncmp` path, where the C leaves `errCode`
unwritten. -/
def _lineIsError (line : List Char) (len : Nat) : Int × Option Nat :=
  let r := scanfErrorFormat (chars "+CME") line
  if r.fst ≠ 0 then r
  else
    let r2 := scanfErrorFormat (chars "+CMS") line
    if r2.fst ≠ 0 then r2
    else (if strncmpN line (chars "ERROR") len = 0 then 1 else 0, none)

/-! ## The command response loop (`_RIL_SendATCmd`, lines 463-606)

The loop is indexed by `fuel`, the number of remaining iterations before the
absolute deadline (`_RIL_GetCurrentTick() < absoluteTimeout`); exhausting it
models the timeout.  On the `RIL_ATRSP_CONTINUE` path the C parses a
URC-looking line with `RIL_ParseURC` into a local variable and discards the
result (lines 562-567) — no subscriber delivery happens, so nothing is
recorded beyond the callback invocation itself.

Echo detection (lines 528-535): `cmdWithCRLF` is a pointer into the very
`lineCache` buffer that every response line is then read into
(`const char* cmdWithCRLF = lineCache;` at line 485; the reads at line 519
overwrite `lineCache`), so `Str_compareFix(lineCache, cmdWithCRLF, len)` at
line 529 compares the just-read line with itself and always returns 0: while
`echoSeen` is still false, the first complete line is consumed as the echo
whatever its text.  The model renders that self-comparison as
`strncmpN line line line.length`. -/

def sendLoop (cb : Option ATResponseCallback)
    (waitForPrompt : Bool) :
    Nat → Bool → RILContext → List Char → EngineOut
  | 0, _, ctx, rx => ⟨.timeout, _RIL_ReleaseAccess true ctx, rx, []⟩
  | fuel + 1, echoSeen, ctx, rx =>
    if rx = [] then sendLoop cb waitForPrompt fuel echoSeen ctx rx
    else
      match (if waitForPrompt then readUntilPrompt rx else none) with
      | some (_, rest) => ⟨.success, _RIL_ReleaseAccess true ctx, rest, []⟩
      | none =>
        if ctx.operationMode = .normal then
          match readUntilCRLF rx with
          | none => sendLoop cb waitForPrompt fuel echoSeen ctx rx
          | some (raw, rest) =>
            match stripFrame raw with
            | none => sendLoop cb waitForPrompt fuel echoSeen ctx rest
            | some line =>
              if ¬echoSeen ∧ strncmpN line line line.length = 0 then
                sendLoop cb waitForPrompt fuel true ctx rest
              else if echoSeen then
                let ctx := { ctx with error := 0 }
                let le := _lineIsError line line.length
                if le.fst > 0 then
                  ⟨.failed, _RIL_ReleaseAccess true { ctx with error := le.snd.getD 0 },
                    rest, []⟩
                else
                  match cb with
                  | some f =>
                    let c := f line line.length ctx
                    if c.fst = 1 then
                      let o := sendLoop cb waitForPrompt fuel echoSeen c.snd rest
                      ⟨o.result, o.ctx, o.rx, .cbInvoke line line.length :: o.events⟩
                    else
                      ⟨.success, _RIL_ReleaseAccess true c.snd, rest,
                        [.cbInvoke line line.length]⟩
                  | none => ⟨.success, _RIL_ReleaseAccess true ctx, rest, []⟩
              else ⟨.success, _RIL_ReleaseAccess true ctx, rest, []⟩
        else if ctx.operationMode = .binary ∧ 0 < ctx.expectedBytes then
          if ctx.expectedBytes ≤ rx.length then
            let payload := rx.take ctx.expectedBytes
            let rest := rx.drop ctx.expectedBytes
            match cb with
            | some f =>
              let c := f payload ctx.expectedBytes ctx
              if c.fst = 1 then
                let o := sendLoop cb waitForPrompt fuel echoSeen
                  (RIL_SetOperationNormal c.snd) rest
                ⟨o.result, o.ctx, o.rx, .cbInvoke payload ctx.expectedBytes :: o.events⟩
              else if c.fst = 0 then
                ⟨.success, _RIL_ReleaseAccess true c.snd, rest,
                  [.cbInvoke payload ctx.expectedBytes]⟩
              else
                ⟨.failed, _RIL_ReleaseAccess true c.snd, rest,
                  [.cbInvoke payload ctx.expectedBytes]⟩
            | none => ⟨.success, _RIL_ReleaseAccess true ctx, rest, []⟩
          else sendLoop cb waitForPrompt fuel echoSeen ctx rx
        else sendLoop cb waitForPrompt fuel echoSeen ctx rx

/-- Model of `_RIL_SendATCmd(atCmd, atCmdLen, atRsp_callBack, userData, waitForPrompt,
timeOut)`: acquire access, write the CRLF-appended command (`writeOk` models
the `OStream_writeBytes`/`OStream_flush` outcome), then run the response
loop.  `atCmd`'s bytes only reach the modem through that write: inside the
loop the C's `cmdWithCRLF` pointer aliases the line buffer (see `sendLoop`),
so the command text plays no further role. -/
def _RIL_SendATCmd (atCmd : List Char) (cb : Option ATResponseCallback)
    (waitForPrompt : Bool) (writeOk : Bool) (ctx : RILContext) (rx : List Char)
    (fuel : Nat) : EngineOut :=
  let acq := _RIL_AcquireAccess ctx
  if acq.fst ≠ .success then ⟨acq.fst, acq.snd, rx, []⟩
  else if ¬writeOk then ⟨.failed, _RIL_ReleaseAccess true acq.snd, rx, []⟩
  else sendLoop cb waitForPrompt fuel false acq.snd rx

/-! ## `_RIL_WaitForResponse` (lines 295-367) and `RIL_SendBinaryData`
(lines 608-658) -/

/-- The response loop of `_RIL_WaitForResponse`: line framing only (no prompt
and no binary branch), optional echo suppression, and no access release — the
caller releases. -/
def waitForResponseLoop (cb : Option ATResponseCallback) (checkEcho : Bool)
    (echoCmd : List Char) :
    Nat → Bool → RILContext → List Char → EngineOut
  | 0, _, ctx, rx => ⟨.timeout, ctx, rx, []⟩
  | fuel + 1, echoSeen, ctx, rx =>
    if rx = [] then waitForResponseLoop cb checkEcho echoCmd fuel echoSeen ctx rx
    else
      match readUntilCRLF rx with
      | none => waitForResponseLoop cb checkEcho echoCmd fuel echoSeen ctx rx
      | some (raw, rest) =>
        match stripFrame raw with
        | none => waitForResponseLoop cb checkEcho echoCmd fuel echoSeen ctx rest
        | some line =>
          if checkEcho ∧ ¬echoSeen ∧ strncmpN line echoCmd line.length = 0 then
            waitForResponseLoop cb checkEcho echoCmd fuel true ctx rest
          else if echoSeen then
            let ctx := { ctx with error := 0 }
            let le := _lineIsError line line.length
            if le.fst > 0 then
              ⟨.failed, { ctx with error := le.snd.getD 0 }, rest, []⟩
            else
              match cb with
              | some f =>
                let c := f line line.length ctx
                if c.fst = 1 then
                  let o := waitForResponseLoop cb checkEcho echoCmd fuel echoSeen c.snd rest
                  ⟨o.result, o.ctx, o.rx, .cbInvoke line line.length :: o.events⟩
                else
                  ⟨.success, c.snd, rest, [.cbInvoke line line.length]⟩
              | none => ⟨.success, ctx, rest, []⟩
          else ⟨.success, ctx, rest, []⟩

/-- Model of `_RIL_WaitForResponse`: `echoSeen` starts as `!checkEcho`. -/
def _RIL_WaitForResponse (cb : Option ATResponseCallback) (checkEcho : Bool)
    (echoCmd : List Char) (ctx : RILContext) (rx : List Char) (fuel : Nat) :
    EngineOut :=
  waitForResponseLoop cb checkEcho echoCmd fuel (!checkEcho) ctx rx

/-- Model of `RIL_SendBinaryData(data, dataLen, atRsp_callBack, userData, timeOut)`:
acquire access, send the payload (`txOk` models the combined outcome of
`_RIL_SendChunkedData` and `_RIL_WaitForTransmitComplete`), wait for the
response with echo checking disabled, then release access **without**
resetting the operation mode (`_RIL_ReleaseAccess(false)` on every path,
lines 630, 641 and 656). -/
def RIL_SendBinaryData (txOk : Bool) (cb : Option ATResponseCallback)
    (ctx : RILContext) (rx : List Char) (fuel : Nat) : EngineOut :=
  let acq := _RIL_AcquireAccess ctx
  if acq.fst ≠ .success then ⟨acq.fst, acq.snd, rx, []⟩
  else if ¬txOk then ⟨.failed, _RIL_ReleaseAccess false acq.snd, rx, []⟩
  else
    let o := _RIL_WaitForResponse cb false [] acq.snd rx fuel
    ⟨o.result, _RIL_ReleaseAccess false o.ctx, o.rx, o.events⟩

/-! ## URC registry and dispatcher (`ril_urc.h`, `RIL_ParseURC`,
`RIL_ServiceRoutine`) -/

/-- Model of `URC_STRINGS` (generated from `URC_LIST` in `ril_urc.h`), in declaration
order; the position in this list is the `RIL_URCType` tag. -/
def URC_STRINGS : List (List Char) :=
  [chars "+CREG", chars "+CREG", chars "+CEREG", chars "+CGREG", chars "+CGREG",
   chars "+CTZV", chars "+CTZE",
   chars "+CMTI", chars "+CMT", chars "+CDS", chars "+CDSI",
   chars "+COLP", chars "+CLIP", chars "+CRING",
   chars "RDY", chars "+CFUN: 1", chars "+CPIN", chars "+QIND: SMS DONE",
   chars "+QIND: PB DONE",
   chars "+CGEV: REJECT", chars "+CGEV: NW REACT", chars "+CGEV: NW DEACT",
   chars "+CGEV: ME DEACT", chars "+CGEV: NW DETACH", chars "+CGEV: ME DETACH",
   chars "+CGEV: NW CLASS", chars "+CGEV: ME CLASS", chars "+CGEV: PDN ACT",
   chars "+CGEV: PDN DEACT",
   chars "+USIM: 0", chars "+USIM: 1",
   chars "+QIND: \"csq\"", chars "+QIND: \"smsfull\"", chars "+QIND: \"act\"",
   chars "+QSIMSTAT", chars "+QCSQ", chars "+QNETDEVSTATUS",
   chars "+QMTSTAT", chars "+QMTRECV", chars "+QMTPING"]

/-- Model of `_lineIsURC` (lines 681-684): the line is URC-shaped iff its first
character is `'+'` (an empty line reads the NUL terminator, which is not
`'+'`). -/
def _lineIsURC (line : List Char) : Bool := line.head? = some '+'

/-- Model of `Str_findStrs(line, URC_STRINGS, URC_MAX, &ret)`.  Modelled from the
spec: the `Str` helper library is an external dependency (not part of this
repository); per §4.5 the registry prefix table is searched in order and the
matched entry's position is reported, a match being an occurrence of the table
string inside the line. -/
def Str_findStrs (line : List Char) (tbl : List (List Char)) : Option Nat :=
  tbl.findIdx? fun p => decide (p <:+: line)

/-- Model of `strchr(line, ':')`: the suffix of the line starting at the first `':'`,
if any. -/
def strchrColon : List Char → Option (List Char)
  | [] => none
  | c :: cs => if c = ':' then some (c :: cs) else strchrColon cs

/-- A parsed URC event.  The raw text after the first `':'` stands for the
parameter list (`none` when the line has no `':'` and the event has zero
parameters); its tokenisation by the `Param` library into up to
`MAX_URC_PARAMS` values is downstream of every claim and is not modelled
further. -/
structure RIL_URCInfo where
  urcType : Nat
  paramText : Option (List Char)
deriving DecidableEq

/-- Model of `RIL_ParseURC(line, &urcInfo)` (lines 699-742): reject lines that do not
start with `'+'`, search the registry table, record the matched tag, then
take everything after the first `':'` as the parameter text.  `none` models a
`false` return (no URC detected). -/
def RIL_ParseURC (line : List Char) : Option RIL_URCInfo :=
  if ¬_lineIsURC line then none
  else
    match Str_findStrs line URC_STRINGS with
    | none => none
    | some pos =>
      some { urcType := pos, paramText := (strchrColon line).map (List.drop 1) }

/-- Model of `RIL_ServiceRoutine` (lines 190-213): only when the state is `READY` and
RX bytes are buffered, read one CRLF frame; frames longer than the CRLF are
parsed with `RIL_ParseURC` (note: no trailing-`'\r'` strip here, unlike the
command loops) and a detected URC is delivered to the subscriber callback
when one is registered.  Returns the context, the remaining RX bytes, and the
deliveries made. -/
def RIL_ServiceRoutine (ctx : RILContext) (rx : List Char) :
    RILContext × List Char × List RILEvent :=
  if ctx.state = .ready ∧ rx ≠ [] then
    match readUntilCRLF rx with
    | none => (ctx, rx, [])
    | some (raw, rest) =>
      if raw.length ≤ 2 then (ctx, rest, [])
      else
        let line := raw.dropLast.dropLast
        match RIL_ParseURC line with
        | some info =>
          (ctx, rest, if ctx.urcSubscribed then [.urcDeliver info.urcType line] else [])
        | none => (ctx, rest, [])
  else (ctx, rx, [])

/-! ## Lifecycle controller (`RIL_deInitialize`, lines 84-119, and
`RIL_Initialize`, lines 121-188)

Both functions are sequences of `RIL_SendATCmd` calls whose outcomes depend
on the modem; the environment is modelled as `env : Nat → RIL_ATSndError`
giving the result of the `n`-th `RIL_SendATCmd` call issued (in order) since
the start of the modelled run.  The commands themselves are recorded so that
the call structure stays visible. -/

/-- Model of `URC_AT_COMMANDS` (generated from `URC_LIST` in `ril_urc.h`), with `NULL`
entries as `none`; `RIL_deInitialize` sends the non-`NULL` ones in order. -/
def URC_AT_COMMANDS : List (Option String) :=
  [some "AT+CREG=1", some "AT+CREG=2", some "AT+CEREG=2", some "AT+CGREG=1",
   some "AT+CGREG=2",
   some "AT+CTZR=1", some "AT+CTZR=2",
   some "AT+CNMI=2,1,0,1,0", none, none, none,
   some "AT+COLP=1", some "AT+CLIP=1", some "AT+CRC=1",
   none, none, none, none, none,
   some "AT+CGEREP=1,1", some "AT+CGEREP=1,1", some "AT+CGEREP=1,1",
   some "AT+CGEREP=1,1", some "AT+CGEREP=1,1", some "AT+CGEREP=1,1",
   some "AT+CGEREP=1,1", some "AT+CGEREP=1,1", some "AT+CGEREP=1,1",
   some "AT+CGEREP=1,1",
   none, none,
   some "AT+QINDCFG=\"csq\",0,0", some "AT+QINDCFG=\"smsfull\",1,0",
   some "AT+QINDCFG=\"act\",1,0",
   some "AT+QSIMSTAT=1", some "AT+QCSQ=0", none,
   none, none, none]

/-- The configuration commands `RIL_deInitialize` issues after a successful
`AT` probe (lines 93-113): `ATE1`, `AT+CMEE=1`, `ATV1`, and — only when a URC
callback is registered — `AT+QURCCFG="urcport","uart1"` followed by every
non-`NULL` `URC_AT_COMMANDS` entry. -/
def deInitCfgCmds (urcSubscribed : Bool) : List String :=
  ["ATE1", "AT+CMEE=1", "ATV1"] ++
    (if urcSubscribed then
      "AT+QURCCFG=\"urcport\",\"uart1\"" :: URC_AT_COMMANDS.reduceOption
    else [])

structure DeInitOut where
  result : RIL_ATSndError
  nextIdx : Nat
  sent : List String
deriving DecidableEq

/-- The `while (tryCount--)` probe loop of `RIL_deInitialize`: send `"AT"` up
to `tries` times; the first `RIL_AT_SUCCESS` probe triggers the configuration
commands, whose results are read from `env` but never inspected (the C
discards the return values at lines 94-111), and the function returns
`RIL_AT_SUCCESS`; with no successful probe it returns `RIL_AT_FAILED`. -/
def deInitLoop (urcSubscribed : Bool) (env : Nat → RIL_ATSndError) :
    Nat → Nat → DeInitOut
  | idx, 0 => ⟨.failed, idx, []⟩
  | idx, tries + 1 =>
    if env idx = .success then
      ⟨.success, idx + 1 + (deInitCfgCmds urcSubscribed).length,
        "AT" :: deInitCfgCmds urcSubscribed⟩
    else
      let o := deInitLoop urcSubscribed env (idx + 1) tries
      ⟨o.result, o.nextIdx, "AT" :: o.sent⟩

/-- Model of `RIL_deInitialize()`: `RIL_INIT_RETRY = 10` probe attempts. -/
def RIL_deInitialize (urcSubscribed : Bool) (env : Nat → RIL_ATSndError)
    (idx : Nat) : DeInitOut :=
  deInitLoop urcSubscribed env idx 10

/-- Model of `RIL_Initialize(uart, urcCb, powerCommandCb, initialResultCb)`'s retry
loop (lines 155-185): up to 3 attempts of `RIL_deInitialize`; a success on a
not-yet-restarted module triggers a power restart and another attempt; a
success after a restart reports `RIL_AT_SUCCESS` through the init-result
callback; a failed attempt restarts and retries.  Returns the result and the
list of init-result callback invocations (empty when no callback is
registered). -/
def initAttemptLoop (urcSubscribed hasInitCb : Bool)
    (env : Nat → RIL_ATSndError) :
    Nat → Nat → Bool → RIL_ATSndError × List RIL_ATSndError
  | _, 0, _ => (.timeout, [])
  | idx, remaining + 1, moduleRestarted =>
    let o := RIL_deInitialize urcSubscribed env idx
    if o.result = .success then
      if moduleRestarted then
        (.success, if hasInitCb then [.success] else [])
      else
        -- RIL_PowerRestart + 1 s delay, then retry (lines 172-176)
        initAttemptLoop urcSubscribed hasInitCb env o.nextIdx remaining true
    else
      -- power cycle and retry (lines 180-183)
      initAttemptLoop urcSubscribed hasInitCb env o.nextIdx remaining true

/-- Model of `RIL_Initialize`: when already initialised, report success immediately
(lines 124-129); otherwise set the context up and run up to 3 attempts,
returning `RIL_AT_TIMEOUT` — without any callback invocation — when all of
them fail (line 187). -/
def RIL_Initialize (alreadyInitialized urcSubscribed hasInitCb : Bool)
    (env : Nat → RIL_ATSndError) : RIL_ATSndError × List RIL_ATSndError :=
  if alreadyInitialized then (.success, if hasInitCb then [.success] else [])
  else initAttemptLoop urcSubscribed hasInitCb env 0 3 false

/-! ## Framing lemmas -/

theorem readUntilCRLF_append (xs ys : List Char) (h : '\r' ∉ xs) :
    readUntilCRLF (xs ++ '\r' :: '\n' :: ys) = some (xs ++ ['\r', '\n'], ys) := by
  induction xs with
  | nil => simp [readUntilCRLF]
  | cons c cs ih =>
    have hc : c ≠ '\r' := fun hc => h (hc ▸ List.mem_cons_self c cs)
    have h' : '\r' ∉ cs := fun hm => h (List.mem_cons_of_mem c hm)
    simp only [List.cons_append, readUntilCRLF, List.append_eq, ih h']
    rw [if_neg (by simp [hc])]

theorem stripFrame_append (xs : List Char) (hne : xs ≠ []) (h : '\r' ∉ xs) :
    stripFrame (xs ++ ['\r', '\n']) = some xs := by
  have hlen : (xs ++ ['\r', '\n']).length = xs.length + 2 := by simp
  have hd : (xs ++ ['\r', '\n']).dropLast.dropLast = xs := by
    have e : xs ++ ['\r', '\n'] = (xs ++ ['\r']) ++ ['\n'] := by simp
    rw [e, List.dropLast_concat, List.dropLast_concat]
  have hgt : ¬((xs ++ ['\r', '\n']).length ≤ 2) := by
    rw [hlen]
    intro hl
    exact hne (List.length_eq_zero.mp (by omega))
  simp only [stripFrame, if_neg hgt, hd]
  rw [if_neg]
  intro hl
  exact h (List.mem_of_mem_getLast? (Option.mem_def.mpr hl))

theorem strncmpN_append_self (xs ys : List Char) :
    strncmpN xs (xs ++ ys) xs.length = 0 := by
  induction xs with
  | nil => simp [strncmpN]
  | cons c cs ih => simpa [strncmpN] using ih

theorem strncmpN_prefix_zero {xs ys : List Char} (h : xs <+: ys) :
    strncmpN xs ys xs.length = 0 := by
  obtain ⟨t, rfl⟩ := h
  exact strncmpN_append_self xs t

theorem strncmpN_self (xs : List Char) : ∀ n, strncmpN xs xs n = 0 := by
  induction xs with
  | nil =>
    intro n
    cases n <;> rfl
  | cons c cs ih =>
    intro n
    cases n with
    | zero => rfl
    | succ m => simpa [strncmpN] using ih m

/-! ## One-step lemmas for the `_RIL_SendATCmd` response loop

These are stated over an explicit context constructor
`⟨st, .normal, eb, er, ini, urc⟩` so that the record updates performed by the
loop body reduce. -/

/-- While `echoSeen` is false, the first complete line is consumed as the
echo whatever its text — the C's echo comparison is a self-comparison
(`cmdWithCRLF` aliases `lineCache`) and always succeeds. -/
theorem sendLoop_first_line_echo (L tail : List Char)
    (cb : Option ATResponseCallback) (fuel : Nat)
    (st : RILState) (eb er : Nat) (ini urc : Bool)
    (hne : L ≠ []) (hcr : '\r' ∉ L) :
    sendLoop cb false (fuel + 1) false ⟨st, .normal, eb, er, ini, urc⟩
        (L ++ '\r' :: '\n' :: tail) =
      sendLoop cb false fuel true ⟨st, .normal, eb, er, ini, urc⟩
        tail := by
  rw [sendLoop]
  simp [hne, readUntilCRLF_append _ _ hcr, stripFrame_append _ hne hcr,
    strncmpN_self]

theorem sendLoop_post_echo_error (L tail : List Char)
    (cb : Option ATResponseCallback) (fuel : Nat)
    (st : RILState) (eb er : Nat) (ini urc : Bool)
    (hne : L ≠ []) (hcr : '\r' ∉ L)
    (herr : 0 < (_lineIsError L L.length).fst) :
    sendLoop cb false (fuel + 1) true ⟨st, .normal, eb, er, ini, urc⟩
        (L ++ '\r' :: '\n' :: tail) =
      ⟨.failed,
        _RIL_ReleaseAccess true
          ⟨st, .normal, eb, (_lineIsError L L.length).snd.getD 0, ini, urc⟩,
        tail, []⟩ := by
  rw [sendLoop]
  simp [readUntilCRLF_append _ _ hcr, stripFrame_append _ hne hcr, herr]

/-! ## `_lineIsError` recognition lemmas -/

theorem scanLit_self (lit rest : List Char) :
    scanLit lit (lit ++ rest) = .matched rest := by
  induction lit with
  | nil => rfl
  | cons l ls ih => simp [scanLit, ih]

theorem digit_not_ws {c : Char} (h : isDigitChar c = true) :
    isCWhitespace c = false := by
  simp [isDigitChar] at h
  simp [isCWhitespace]
  omega

theorem digit_ne_cr {c : Char} (h : isDigitChar c = true) : c ≠ '\r' := by
  intro hc
  subst hc
  exact absurd h (by decide)

theorem dropWhile_ws_of_digits (ds : List Char)
    (hd : ∀ c ∈ ds, isDigitChar c = true) :
    ds.dropWhile isCWhitespace = ds := by
  cases ds with
  | nil => rfl
  | cons c cs =>
    rw [List.dropWhile_cons, if_neg]
    rw [digit_not_ws (hd c (List.mem_cons_self c cs))]
    simp

theorem takeWhile_digits_self (ds : List Char)
    (hd : ∀ c ∈ ds, isDigitChar c = true) :
    ds.takeWhile isDigitChar = ds := by
  induction ds with
  | nil => rfl
  | cons c cs ih =>
    rw [List.takeWhile_cons, if_pos (hd c (List.mem_cons_self c cs))]
    rw [ih fun x hx => hd x (List.mem_cons_of_mem c hx)]

theorem scanfReadNum_digits (c : Char) (cs : List Char)
    (hd : ∀ x ∈ c :: cs, isDigitChar x = true) :
    scanfReadNum (' ' :: c :: cs) = (1, some (digitsVal (c :: cs) % 65536)) := by
  unfold scanfReadNum
  rw [show List.dropWhile isCWhitespace (' ' :: c :: cs) =
    List.dropWhile isCWhitespace (c :: cs) from rfl]
  rw [dropWhile_ws_of_digits (c :: cs) hd]
  simp [hd c (List.mem_cons_self c cs), takeWhile_digits_self _ hd]

theorem scanfErrorFormat_cme_hit (c : Char) (cs : List Char)
    (hd : ∀ x ∈ c :: cs, isDigitChar x = true) :
    scanfErrorFormat (chars "+CME") (chars "+CME ERROR: " ++ (c :: cs)) =
      (1, some (digitsVal (c :: cs) % 65536)) := by
  rw [show scanfErrorFormat (chars "+CME") (chars "+CME ERROR: " ++ (c :: cs)) =
    scanfReadNum (' ' :: c :: cs) from rfl]
  exact scanfReadNum_digits c cs hd

theorem scanfErrorFormat_cms_hit (c : Char) (cs : List Char)
    (hd : ∀ x ∈ c :: cs, isDigitChar x = true) :
    scanfErrorFormat (chars "+CMS") (chars "+CMS ERROR: " ++ (c :: cs)) =
      (1, some (digitsVal (c :: cs) % 65536)) := by
  rw [show scanfErrorFormat (chars "+CMS") (chars "+CMS ERROR: " ++ (c :: cs)) =
    scanfReadNum (' ' :: c :: cs) from rfl]
  exact scanfReadNum_digits c cs hd

theorem lineIsError_cme (c : Char) (cs : List Char) (len : Nat)
    (hd : ∀ x ∈ c :: cs, isDigitChar x = true) :
    _lineIsError (chars "+CME ERROR: " ++ (c :: cs)) len =
      (1, some (digitsVal (c :: cs) % 65536)) := by
  unfold _lineIsError
  rw [scanfErrorFormat_cme_hit c cs hd]
  simp

theorem lineIsError_cms (c : Char) (cs : List Char) (len : Nat)
    (hd : ∀ x ∈ c :: cs, isDigitChar x = true) :
    _lineIsError (chars "+CMS ERROR: " ++ (c :: cs)) len =
      (1, some (digitsVal (c :: cs) % 65536)) := by
  unfold _lineIsError
  rw [show scanfErrorFormat (chars "+CME") (chars "+CMS ERROR: " ++ (c :: cs)) =
    (0, none) from rfl]
  rw [scanfErrorFormat_cms_hit c cs hd]
  simp

/-- Every nonempty prefix of the literal `ERROR` is classified as an error by
`_lineIsError` through the length-limited `strncmp`, with no error code
written. -/
theorem lineIsError_prefix_ERROR (L : List Char) (hne : L ≠ [])
    (hpre : L <+: chars "ERROR") :
    _lineIsError L L.length = (1, none) := by
  obtain ⟨c, cs, rfl⟩ := List.exists_cons_of_ne_nil hne
  have hc : c = 'E' := by
    have h5 : chars "ERROR" = 'E' :: chars "RROR" := rfl
    rw [h5] at hpre
    exact (List.cons_prefix_cons.mp hpre).1
  subst hc
  unfold _lineIsError
  rw [show scanfErrorFormat (chars "+CME") ('E' :: cs) = (0, none) from rfl]
  rw [show scanfErrorFormat (chars "+CMS") ('E' :: cs) = (0, none) from rfl]
  have h0 := strncmpN_prefix_zero hpre
  simp only [List.length_cons] at h0
  simp [h0]

/-- Common shape for the error-detection scenarios: the engine sees the echo
of the command and then an error line `L`. -/
theorem sendATCmd_err_scenario (atCmd L rest : List Char)
    (cb : Option ATResponseCallback) (fuel : Nat)
    (st : RILState) (eb er : Nat) (urc : Bool)
    (hcne : atCmd ≠ []) (hccr : '\r' ∉ atCmd)
    (hLne : L ≠ []) (hLcr : '\r' ∉ L)
    (herr : 0 < (_lineIsError L L.length).fst) :
    _RIL_SendATCmd atCmd cb false true ⟨st, .normal, eb, er, true, urc⟩
        (atCmd ++ CRLF ++ L ++ CRLF ++ rest) (fuel + 2) =
      ⟨.failed,
        _RIL_ReleaseAccess true
          ⟨.busy, .normal, eb, (_lineIsError L L.length).snd.getD 0, true, urc⟩,
        rest, []⟩ := by
  have hacq : _RIL_AcquireAccess ⟨st, .normal, eb, er, true, urc⟩ =
      (.success, ⟨.busy, .normal, eb, 0, true, urc⟩) := rfl
  unfold _RIL_SendATCmd
  rw [hacq]
  rw [show atCmd ++ CRLF ++ L ++ CRLF ++ rest =
    atCmd ++ '\r' :: '\n' :: (L ++ '\r' :: '\n' :: rest) by simp [CRLF]]
  rw [show fuel + 2 = (fuel + 1) + 1 from rfl]
  show sendLoop cb false ((fuel + 1) + 1) false
      ⟨.busy, .normal, eb, 0, true, urc⟩
      (atCmd ++ '\r' :: '\n' :: (L ++ '\r' :: '\n' :: rest)) = _
  rw [sendLoop_first_line_echo atCmd _ cb (fuel + 1) .busy eb 0 true urc hcne hccr]
  exact sendLoop_post_echo_error L rest cb fuel .busy eb 0 true urc hLne hLcr herr

/-- C5: if, after the command echo, `_RIL_SendATCmd` reads a response line
`+CME ERROR: <n>` or `+CMS ERROR: <n>`, it returns `RIL_AT_FAILED` with `n`
(as a `uint16`, i.e. mod `2^16`) stored as the last error code readable via
`RIL_AT_GetErrCode`; a response line that is exactly `ERROR` also yields
`RIL_AT_FAILED`. -/
theorem error_line_detection (atCmd ds rest : List Char)
    (cb : Option ATResponseCallback) (fuel : Nat)
    (st : RILState) (eb er : Nat) (urc : Bool)
    (hcne : atCmd ≠ []) (hccr : '\r' ∉ atCmd)
    (hne : ds ≠ []) (hd : ∀ c ∈ ds, isDigitChar c = true) :
    ((_RIL_SendATCmd atCmd cb false true ⟨st, .normal, eb, er, true, urc⟩
        (atCmd ++ CRLF ++ (chars "+CME ERROR: " ++ ds) ++ CRLF ++ rest)
        (fuel + 2)).result = .failed ∧
      RIL_AT_GetErrCode
        (_RIL_SendATCmd atCmd cb false true ⟨st, .normal, eb, er, true, urc⟩
          (atCmd ++ CRLF ++ (chars "+CME ERROR: " ++ ds) ++ CRLF ++ rest)
          (fuel + 2)).ctx = digitsVal ds % 65536) ∧
    ((_RIL_SendATCmd atCmd cb false true ⟨st, .normal, eb, er, true, urc⟩
        (atCmd ++ CRLF ++ (chars "+CMS ERROR: " ++ ds) ++ CRLF ++ rest)
        (fuel + 2)).result = .failed ∧
      RIL_AT_GetErrCode
        (_RIL_SendATCmd atCmd cb false true ⟨st, .normal, eb, er, true, urc⟩
          (atCmd ++ CRLF ++ (chars "+CMS ERROR: " ++ ds) ++ CRLF ++ rest)
          (fuel + 2)).ctx = digitsVal ds % 65536) ∧
    (_RIL_SendATCmd atCmd cb false true ⟨st, .normal, eb, er, true, urc⟩
        (atCmd ++ CRLF ++ chars "ERROR" ++ CRLF ++ rest) (fuel + 2)).result =
      .failed := by
  obtain ⟨c, cs, rfl⟩ := List.exists_cons_of_ne_nil hne
  have hpre_cme : '\r' ∉ chars "+CME ERROR: " := by decide
  have hpre_cms : '\r' ∉ chars "+CMS ERROR: " := by decide
  have hds_cr : ∀ x ∈ c :: cs, x ≠ '\r' := fun x hx => digit_ne_cr (hd x hx)
  have hcr1 : '\r' ∉ chars "+CME ERROR: " ++ (c :: cs) := by
    intro hm
    rcases List.mem_append.mp hm with h | h
    · exact hpre_cme h
    · exact hds_cr _ h rfl
  have hcr2 : '\r' ∉ chars "+CMS ERROR: " ++ (c :: cs) := by
    intro hm
    rcases List.mem_append.mp hm with h | h
    · exact hpre_cms h
    · exact hds_cr _ h rfl
  have hne1 : chars "+CME ERROR: " ++ (c :: cs) ≠ [] := by simp
  have hne2 : chars "+CMS ERROR: " ++ (c :: cs) ≠ [] := by simp
  have hE1 : ∀ len, _lineIsError (chars "+CME ERROR: " ++ (c :: cs)) len =
      (1, some (digitsVal (c :: cs) % 65536)) := fun len => lineIsError_cme c cs len hd
  have hE2 : ∀ len, _lineIsError (chars "+CMS ERROR: " ++ (c :: cs)) len =
      (1, some (digitsVal (c :: cs) % 65536)) := fun len => lineIsError_cms c cs len hd
  refine ⟨⟨?_, ?_⟩, ⟨?_, ?_⟩, ?_⟩
  · rw [sendATCmd_err_scenario atCmd _ rest cb fuel st eb er urc hcne hccr hne1 hcr1
      (by simp [hE1])]
  · rw [sendATCmd_err_scenario atCmd _ rest cb fuel st eb er urc hcne hccr hne1 hcr1
      (by simp [hE1])]
    simp [RIL_AT_GetErrCode, _RIL_ReleaseAccess, RIL_SetOperationNormal, hE1]
  · rw [sendATCmd_err_scenario atCmd _ rest cb fuel st eb er urc hcne hccr hne2 hcr2
      (by simp [hE2])]
  · rw [sendATCmd_err_scenario atCmd _ rest cb fuel st eb er urc hcne hccr hne2 hcr2
      (by simp [hE2])]
    simp [RIL_AT_GetErrCode, _RIL_ReleaseAccess, RIL_SetOperationNormal, hE2]
  · rw [sendATCmd_err_scenario atCmd _ rest cb fuel st eb er urc hcne hccr
      (by decide) (by decide) (by decide)]

/-- Witness for C5: `send("AT+COPS?")` answered by its echo and
`"+CME ERROR: 30"` (and the CMS/plain-`ERROR` variants). -/
theorem error_line_detection_witness :
    ((_RIL_SendATCmd (chars "AT+COPS?") none false true
        ⟨.ready, .normal, 0, 0, true, false⟩
        (chars "AT+COPS?" ++ CRLF ++ (chars "+CME ERROR: " ++ chars "30") ++
          CRLF ++ []) (0 + 2)).result = .failed ∧
      RIL_AT_GetErrCode
        (_RIL_SendATCmd (chars "AT+COPS?") none false true
          ⟨.ready, .normal, 0, 0, true, false⟩
          (chars "AT+COPS?" ++ CRLF ++ (chars "+CME ERROR: " ++ chars "30") ++
            CRLF ++ []) (0 + 2)).ctx = digitsVal (chars "30") % 65536) ∧
    ((_RIL_SendATCmd (chars "AT+COPS?") none false true
        ⟨.ready, .normal, 0, 0, true, false⟩
        (chars "AT+COPS?" ++ CRLF ++ (chars "+CMS ERROR: " ++ chars "30") ++
          CRLF ++ []) (0 + 2)).result = .failed ∧
      RIL_AT_GetErrCode
        (_RIL_SendATCmd (chars "AT+COPS?") none false true
          ⟨.ready, .normal, 0, 0, true, false⟩
          (chars "AT+COPS?" ++ CRLF ++ (chars "+CMS ERROR: " ++ chars "30") ++
            CRLF ++ []) (0 + 2)).ctx = digitsVal (chars "30") % 65536) ∧
    (_RIL_SendATCmd (chars "AT+COPS?") none false true
        ⟨.ready, .normal, 0, 0, true, false⟩
        (chars "AT+COPS?" ++ CRLF ++ chars "ERROR" ++ CRLF ++ []) (0 + 2)).result =
      .failed :=
  error_line_detection (chars "AT+COPS?") (chars "30") [] none 0 .ready 0 0 false
    (by decide) (by decide) (by decide) (by decide)

/-- C8 (counterexample to the claim as stated): `send("AT+COPS?")` answered
by the single line `"ERROR"` — which does not prefix-match the CRLF-appended
command — does **not** return `Success` immediately: the line is consumed as
the echo (the C's `Str_compareFix` echo test compares `lineCache` with
itself, since `cmdWithCRLF` aliases it) and, with nothing further to read,
the command times out. -/
theorem non_echo_first_line_counterexample :
    strncmpN (chars "ERROR") (chars "AT+COPS?" ++ CRLF) (chars "ERROR").length ≠ 0 ∧
    (_RIL_SendATCmd (chars "AT+COPS?") none false true
        ⟨.ready, .normal, 0, 0, true, false⟩ (chars "ERROR\r\n") 2).result =
      .timeout := by
  refine ⟨by decide, by decide⟩

/-- C8 (amended): in NORMAL mode with `waitForPrompt = false`, the first
complete line read after writing the command is always consumed as the
command echo, whatever its text: `cmdWithCRLF` aliases the `lineCache`
buffer every response line is read into (ril.c lines 485 and 519), so the
`Str_compareFix` echo test at line 529 is a self-comparison that returns 0.
The run continues from the remaining input with `echoSeen` latched; the
first line triggers neither error detection nor a callback invocation — even
when it is `ERROR` or `+CME ERROR: <n>` — and the function never returns
`Success` immediately on a first line that fails a genuine prefix match. -/
theorem first_line_always_echo (atCmd L rest : List Char)
    (cb : Option ATResponseCallback) (fuel : Nat)
    (st : RILState) (eb er : Nat) (urc : Bool)
    (hLne : L ≠ []) (hLcr : '\r' ∉ L) :
    _RIL_SendATCmd atCmd cb false true ⟨st, .normal, eb, er, true, urc⟩
        (L ++ CRLF ++ rest) (fuel + 1) =
      sendLoop cb false fuel true ⟨.busy, .normal, eb, 0, true, urc⟩ rest := by
  have hacq : _RIL_AcquireAccess ⟨st, .normal, eb, er, true, urc⟩ =
      (.success, ⟨.busy, .normal, eb, 0, true, urc⟩) := rfl
  unfold _RIL_SendATCmd
  rw [hacq]
  rw [show L ++ CRLF ++ rest = L ++ '\r' :: '\n' :: rest by simp [CRLF]]
  exact sendLoop_first_line_echo L rest cb fuel .busy eb 0 true urc hLne hLcr

/-- Witness for C8's amended claim: a first line `"ERROR"` (not matching the
command) is swallowed as the echo and the run continues on the remaining
`"OK\r\n"` with `echoSeen` set. -/
theorem first_line_always_echo_witness :
    _RIL_SendATCmd (chars "AT+COPS?") none false true
        ⟨.ready, .normal, 0, 0, true, false⟩
        (chars "ERROR" ++ CRLF ++ chars "OK\r\n") (1 + 1) =
      sendLoop none false 1 true ⟨.busy, .normal, 0, 0, true, false⟩
        (chars "OK\r\n") :=
  first_line_always_echo (chars "AT+COPS?") (chars "ERROR") (chars "OK\r\n")
    none 1 .ready 0 0 false (by decide) (by decide)

/-- C9 (amended): after the echo has been seen, any **nonempty** response
line that is a prefix of `"ERROR"` (in particular the proper prefixes `"E"`,
`"ER"`, `"ERR"`, `"ERRO"`) is classified as a modem error by `_lineIsError`
— the `strncmp` comparison runs over only the line's own length — and
`_RIL_SendATCmd` returns `RIL_AT_FAILED`.  The empty line is the exception:
see the counterexample. -/
theorem prefix_of_error_line_fails (atCmd L rest : List Char)
    (cb : Option ATResponseCallback) (fuel : Nat)
    (st : RILState) (eb er : Nat) (urc : Bool)
    (hcne : atCmd ≠ []) (hccr : '\r' ∉ atCmd)
    (hLne : L ≠ []) (hpre : L <+: chars "ERROR") :
    (_RIL_SendATCmd atCmd cb false true ⟨st, .normal, eb, er, true, urc⟩
        (atCmd ++ CRLF ++ L ++ CRLF ++ rest) (fuel + 2)).result = .failed := by
  have hLcr : '\r' ∉ L := fun hm =>
    (by decide : '\r' ∉ chars "ERROR") (hpre.sublist.subset hm)
  have herr : 0 < (_lineIsError L L.length).fst := by
    rw [lineIsError_prefix_ERROR L hLne hpre]
    exact Int.zero_lt_one
  rw [sendATCmd_err_scenario atCmd L rest cb fuel st eb er urc hcne hccr hLne hLcr
    herr]

/-- Witness for C9's amended claim at the proper prefix `"ERR"`. -/
theorem prefix_of_error_line_fails_witness :
    (_RIL_SendATCmd (chars "AT") none false true
        ⟨.ready, .normal, 0, 0, true, false⟩
        (chars "AT" ++ CRLF ++ chars "ERR" ++ CRLF ++ []) (0 + 2)).result =
      .failed :=
  prefix_of_error_line_fails (chars "AT") (chars "ERR") [] none 0 .ready 0 0 false
    (by decide) (by decide) (by decide) (by decide)

/-- C9 (counterexample to the claim as stated): the empty line — obtained
from the raw frame `"\r\r\n"` after CRLF and trailing-CR stripping — is a
proper prefix of `"ERROR"`, yet after the echo it is **not** classified as an
error: `sscanf` returns `EOF` (`-1`) on it, which `_lineIsError` passes
through, so with no callback installed the command returns
`RIL_AT_SUCCESS`, not `RIL_AT_FAILED`. -/
theorem empty_line_prefix_not_failed :
    ([] : List Char) <+: chars "ERROR" ∧ ([] : List Char) ≠ chars "ERROR" ∧
    _lineIsError [] 0 = (-1, none) ∧
    (_RIL_SendATCmd (chars "AT") none false true
        ⟨.ready, .normal, 0, 0, true, false⟩
        (chars "AT" ++ CRLF ++ ['\r'] ++ CRLF ++ []) 2).result = .success := by
  refine ⟨⟨chars "ERROR", rfl⟩, by decide, by decide, by decide⟩

/-! ## Mode restoration (claim C1) -/

/-- Every exit of the `_RIL_SendATCmd` response loop goes through
`_RIL_ReleaseAccess(true)`, so the returned context always has the normal
operation mode and a zero expected byte count. -/
theorem sendLoop_mode_restored
    (cb : Option ATResponseCallback) (waitForPrompt : Bool) :
    ∀ (fuel : Nat) (echoSeen : Bool) (ctx : RILContext) (rx : List Char),
      (sendLoop cb waitForPrompt fuel echoSeen ctx rx).ctx.operationMode =
        .normal ∧
      (sendLoop cb waitForPrompt fuel echoSeen ctx rx).ctx.expectedBytes =
        0 := by
  intro fuel
  induction fuel with
  | zero =>
    intro e c r
    simp [sendLoop, _RIL_ReleaseAccess, RIL_SetOperationNormal]
  | succ n ih =>
    intro e c r
    rw [sendLoop]
    refine ⟨?_, ?_⟩ <;> (repeat' split) <;>
      first
        | exact (ih _ _ _).1
        | exact (ih _ _ _).2
        | simpa using (ih _ _ _).1
        | simpa using (ih _ _ _).2
        | simp [apply_ite EngineOut.ctx, apply_ite RILContext.operationMode,
            apply_ite RILContext.expectedBytes, ih,
            _RIL_ReleaseAccess, RIL_SetOperationNormal]

/-- C1 (amended): after any terminal outcome — `Success`, `Failed` or
`Timeout` — of `_RIL_SendATCmd`, the context's operation mode is NORMAL and
the expected binary byte count is 0, because every terminal path of the
command loop calls `_RIL_ReleaseAccess(true)`.  (`RIL_SendBinaryData`
releases with `resetOperationMode = false` and does **not** restore the
mode; see the counterexample.) -/
theorem sendATCmd_mode_restored (atCmd : List Char)
    (cb : Option ATResponseCallback) (waitForPrompt writeOk : Bool)
    (ctx : RILContext) (rx : List Char) (fuel : Nat)
    (hterm : (_RIL_SendATCmd atCmd cb waitForPrompt writeOk ctx rx fuel).result =
        .success ∨
      (_RIL_SendATCmd atCmd cb waitForPrompt writeOk ctx rx fuel).result = .failed ∨
      (_RIL_SendATCmd atCmd cb waitForPrompt writeOk ctx rx fuel).result = .timeout) :
    (_RIL_SendATCmd atCmd cb waitForPrompt writeOk ctx rx fuel).ctx.operationMode =
      .normal ∧
    (_RIL_SendATCmd atCmd cb waitForPrompt writeOk ctx rx fuel).ctx.expectedBytes =
      0 := by
  by_cases hini : ctx.initialized = true
  · by_cases hw : writeOk = true
    · simp [_RIL_SendATCmd, _RIL_AcquireAccess, hini, hw, sendLoop_mode_restored]
    · rw [Bool.not_eq_true] at hw
      simp [_RIL_SendATCmd, _RIL_AcquireAccess, hini, hw,
        _RIL_ReleaseAccess, RIL_SetOperationNormal]
  · rw [Bool.not_eq_true] at hini
    simp [_RIL_SendATCmd, _RIL_AcquireAccess, hini] at hterm

/-- Witness for C1's amended claim: a successful `send("AT")` answered by its
echo and `"OK"`. -/
theorem sendATCmd_mode_restored_witness :
    (_RIL_SendATCmd (chars "AT") none false true
        ⟨.ready, .normal, 0, 0, true, false⟩ (chars "AT\r\nOK\r\n") 3).ctx.operationMode =
      .normal ∧
    (_RIL_SendATCmd (chars "AT") none false true
        ⟨.ready, .normal, 0, 0, true, false⟩ (chars "AT\r\nOK\r\n") 3).ctx.expectedBytes =
      0 :=
  sendATCmd_mode_restored (chars "AT") none false true
    ⟨.ready, .normal, 0, 0, true, false⟩ (chars "AT\r\nOK\r\n") 3 (Or.inl (by decide))

/-- The response callback of the C1 counterexample: an adapter that switches
the engine to binary mode (the sanctioned `RIL_SetOperationBinary` API,
callable from a response callback) and reports `RIL_ATRSP_SUCCESS`. -/
def binaryModeCallback : ATResponseCallback :=
  fun _ _ c => (0, RIL_SetOperationBinary 7 c)

/-- C1 (counterexample to the claim as stated): `RIL_SendBinaryData` reaches
a terminal `Success` outcome while the operation mode is `BINARY(7)` and the
expected byte count is 7 — `_RIL_ReleaseAccess(false)` does not reset them. -/
theorem sendBinaryData_keeps_binary_mode :
    (RIL_SendBinaryData true (some binaryModeCallback)
        ⟨.ready, .normal, 0, 0, true, false⟩ (chars "X\r\n") 1).result = .success ∧
    (RIL_SendBinaryData true (some binaryModeCallback)
        ⟨.ready, .normal, 0, 0, true, false⟩ (chars "X\r\n") 1).ctx.operationMode =
      .binary ∧
    (RIL_SendBinaryData true (some binaryModeCallback)
        ⟨.ready, .normal, 0, 0, true, false⟩ (chars "X\r\n") 1).ctx.expectedBytes =
      7 := by
  refine ⟨by decide, by decide, by decide⟩

/-! ## URC quiescence during BUSY (claim C6) -/

/-- The `_RIL_SendATCmd` response loop produces only response-callback
invocation events: a URC-looking line whose callback returns
`RIL_ATRSP_CONTINUE` is parsed by `RIL_ParseURC` into a local variable
(lines 562-567) and never forwarded to the URC subscriber. -/
theorem sendLoop_no_urc_delivery
    (cb : Option ATResponseCallback) (waitForPrompt : Bool) :
    ∀ (fuel : Nat) (echoSeen : Bool) (ctx : RILContext) (rx : List Char)
      (tag : Nat) (line : List Char),
      RILEvent.urcDeliver tag line ∉
        (sendLoop cb waitForPrompt fuel echoSeen ctx rx).events := by
  intro fuel
  induction fuel with
  | zero =>
    intro e c r t l
    simp [sendLoop]
  | succ n ih =>
    intro e c r t l
    rw [sendLoop]
    repeat' split
    any_goals exact ih _ _ _ _ _
    any_goals simp [ih]
    all_goals split_ifs <;> simp [ih]

/-- C6: a URC line arriving strictly between a command's echo and its
terminator is never delivered to the URC subscriber.  While the state is
`BUSY`, `RIL_ServiceRoutine` returns without reading anything and delivers
nothing; and `_RIL_SendATCmd` never emits a subscriber delivery — a
URC-looking line consumed inside the active command's response loop is
parsed but not forwarded. -/
theorem urc_quiescence_during_busy :
    (∀ (ctx : RILContext) (rx : List Char), ctx.state = .busy →
      RIL_ServiceRoutine ctx rx = (ctx, rx, [])) ∧
    (∀ (atCmd : List Char) (cb : Option ATResponseCallback)
      (waitForPrompt writeOk : Bool) (ctx : RILContext) (rx : List Char)
      (fuel : Nat) (tag : Nat) (line : List Char),
      RILEvent.urcDeliver tag line ∉
        (_RIL_SendATCmd atCmd cb waitForPrompt writeOk ctx rx fuel).events) := by
  constructor
  · intro ctx rx hbusy
    unfold RIL_ServiceRoutine
    rw [if_neg]
    intro hc
    rw [hbusy] at hc
    cases hc.1
  · intro atCmd cb waitForPrompt writeOk ctx rx fuel tag line
    unfold _RIL_SendATCmd
    by_cases hini : (_RIL_AcquireAccess ctx).fst ≠ .success
    · simp [hini]
    · by_cases hw : writeOk = true
      · simp [hini, hw, sendLoop_no_urc_delivery]
      · rw [Bool.not_eq_true] at hw
        simp [hini, hw]

/-- Witness for C6: a `+CMTI` URC line arriving while BUSY is not delivered,
and a command run that consumes a `+CMTI` line through a `Continue` callback
emits no subscriber delivery. -/
theorem urc_quiescence_during_busy_witness :
    RIL_ServiceRoutine ⟨.busy, .normal, 0, 0, true, true⟩
        (chars "+CMTI: \"SM\",7\r\n") =
      (⟨.busy, .normal, 0, 0, true, true⟩, chars "+CMTI: \"SM\",7\r\n", []) ∧
    RILEvent.urcDeliver 7 (chars "+CMTI: \"SM\",7") ∉
      (_RIL_SendATCmd (chars "AT+CMGR=3") (some fun _ _ c => (1, c)) false true
        ⟨.ready, .normal, 0, 0, true, true⟩
        (chars "AT+CMGR=3\r\n+CMTI: \"SM\",7\r\nOK\r\n") 4).events :=
  ⟨urc_quiescence_during_busy.1 _ _ rfl,
    urc_quiescence_during_busy.2 _ _ _ _ _ _ _ _ _⟩

/-! ## The boot URC `RDY` (claim C2) -/

/-- C2 (failing-input evaluation): `"RDY"` is a registered URC prefix
(`URC_STRINGS` entry `URC_RDY`) and the line `"RDY"` contains it, yet when
the complete line `"RDY\r\n"` arrives in the READY state with a subscriber
registered, `RIL_ParseURC` rejects the line — `_lineIsURC` demands a leading
`'+'` — and `RIL_ServiceRoutine` delivers no URC event at all. -/
theorem rdy_urc_never_delivered :
    chars "RDY" ∈ URC_STRINGS ∧
    (chars "RDY") <:+: (chars "RDY") ∧
    _lineIsURC (chars "RDY") = false ∧
    RIL_ParseURC (chars "RDY") = none ∧
    RIL_ServiceRoutine ⟨.ready, .normal, 0, 0, true, true⟩ (chars "RDY\r\n") =
      (⟨.ready, .normal, 0, 0, true, true⟩, [], []) := by
  refine ⟨by decide, ⟨[], [], by decide⟩, by decide, by decide, by decide⟩

/-! ## Init-result callback discipline (claim C3) -/

/-- C3 (amended): with an init-result callback registered, `RIL_Initialize`
invokes it exactly once with `Success` whenever the call returns `Success`,
and does not invoke it at all when the call returns `Timeout` (the
three-attempt loop falls through to `return RIL_AT_TIMEOUT` at line 187 without
calling the callback). -/
theorem init_callback_discipline (alreadyInit urcSub : Bool)
    (env : Nat → RIL_ATSndError) :
    ((RIL_Initialize alreadyInit urcSub true env).fst = .success →
      (RIL_Initialize alreadyInit urcSub true env).snd = [.success]) ∧
    ((RIL_Initialize alreadyInit urcSub true env).fst = .timeout →
      (RIL_Initialize alreadyInit urcSub true env).snd = []) := by
  unfold RIL_Initialize
  by_cases ha : alreadyInit = true
  · simp [ha]
  · rw [Bool.not_eq_true] at ha
    simp only [ha, Bool.false_eq_true, if_false]
    have main : ∀ (remaining idx : Nat) (moduleRestarted : Bool),
        ((initAttemptLoop urcSub true env idx remaining moduleRestarted).fst =
            .success →
          (initAttemptLoop urcSub true env idx remaining moduleRestarted).snd =
            [.success]) ∧
        ((initAttemptLoop urcSub true env idx remaining moduleRestarted).fst =
            .timeout →
          (initAttemptLoop urcSub true env idx remaining moduleRestarted).snd =
            []) := by
      intro remaining
      induction remaining with
      | zero => intro idx m; simp [initAttemptLoop]
      | succ n ih =>
        intro idx m
        rw [initAttemptLoop]
        split
        · split
          · simp
          · exact ih _ _
        · exact ih _ _
    exact main 3 0 false

/-- Witness for C3's amended claim: every probe answers `OK`, so the first
attempt succeeds, the module is power-cycled, and the second attempt
succeeds after the restart; the callback fires once with `Success`. -/
theorem init_callback_discipline_witness :
    (RIL_Initialize false true true (fun _ => .success)).fst = .success ∧
    (RIL_Initialize false true true (fun _ => .success)).snd = [.success] :=
  ⟨by decide,
    (init_callback_discipline false true (fun _ => .success)).1 (by decide)⟩

/-- C3 (counterexample to the claim as stated): when every `RIL_SendATCmd`
fails, all three init attempts fail, `RIL_Initialize` returns
`RIL_AT_TIMEOUT`, and the registered init-result callback is invoked zero
times — not exactly once with the terminal status. -/
theorem init_timeout_skips_callback :
    (RIL_Initialize false true true (fun _ => .failed)).fst = .timeout ∧
    (RIL_Initialize false true true (fun _ => .failed)).snd = [] ∧
    ¬((RIL_Initialize false true true (fun _ => .failed)).snd =
      [(RIL_Initialize false true true (fun _ => .failed)).fst]) := by
  refine ⟨by decide, by decide, by decide⟩

/-! ## `RIL_deInitialize` ignores the configuration results (claim C10) -/

/-- C10: `RIL_deInitialize` returns `RIL_AT_SUCCESS` exactly when one of its
(up to 10) `AT` sync probes succeeds; the results of every configuration
command (`ATE1`, `AT+CMEE=1`, `ATV1`, `AT+QURCCFG`, and the URC activation
commands) are read from the environment and discarded, so the outcome is
`Success` even when all of them fail — and `Failed` only when all 10 probes
fail. -/
theorem deInitialize_ignores_config_results (urcSub : Bool)
    (env : Nat → RIL_ATSndError) :
    ((∃ k, k < 10 ∧ env k = .success) →
      (RIL_deInitialize urcSub env 0).result = .success) ∧
    ((∀ k, k < 10 → env k ≠ .success) →
      (RIL_deInitialize urcSub env 0).result = .failed) := by
  have main : ∀ (tries idx : Nat),
      ((∃ k, k < tries ∧ env (idx + k) = .success) →
        (deInitLoop urcSub env idx tries).result = .success) ∧
      ((∀ k, k < tries → env (idx + k) ≠ .success) →
        (deInitLoop urcSub env idx tries).result = .failed) := by
    intro tries
    induction tries with
    | zero =>
      intro idx
      exact ⟨fun ⟨k, hk, _⟩ => absurd hk (by omega), fun _ => rfl⟩
    | succ n ih =>
      intro idx
      rw [deInitLoop]
      constructor
      · rintro ⟨k, hk, hs⟩
        split
        · rfl
        · next hidx =>
          have hk0 : k ≠ 0 := fun h0 => hidx (by simpa [h0] using hs)
          have : (deInitLoop urcSub env (idx + 1) n).result = .success :=
            (ih (idx + 1)).1 ⟨k - 1, by omega, by
              have : idx + 1 + (k - 1) = idx + k := by omega
              rw [this]; exact hs⟩
          simpa using this
      · intro hall
        split
        · next hs => exact absurd (by simpa using hs) (hall 0 (by omega))
        · have : (deInitLoop urcSub env (idx + 1) n).result = .failed :=
            (ih (idx + 1)).2 fun k hk => by
              have : idx + 1 + k = idx + (k + 1) := by omega
              rw [this]; exact hall (k + 1) (by omega)
          simpa using this
  exact ⟨fun h => (main 10 0).1 (by simpa using h),
    fun h => (main 10 0).2 (by simpa using h)⟩

/-- Witness for C10: the first probe answers `OK` and every later command —
all the configuration commands included — fails, yet `RIL_deInitialize`
reports `Success`; with no successful probe it reports `Failed`. -/
theorem deInitialize_ignores_config_results_witness :
    (RIL_deInitialize true (fun k => if k = 0 then .success else .failed) 0).result =
      .success ∧
    (RIL_deInitialize true (fun _ => .failed) 0).result = .failed :=
  ⟨(deInitialize_ignores_config_results true _).1 ⟨0, by omega, by decide⟩,
    (deInitialize_ignores_config_results true _).2 fun k _ => by decide⟩
